import Mathlib

/-!
Verification development for `src/xrt/targets/ctl/gui_eel.py` of the monado
ctl GUI target and its bridge specification.

Part 1 embeds the Python module text and the fragment of Python's
statement grammar exercised by the module: a tokenizer and a
recursive-descent statement parser.  CPython compiles a whole module
before executing any statement of it, so a module with a syntax error
produces no observable effect; `moduleEffects` encodes exactly that.

Part 2 (further below) models the bridge design of the specification
(Native Control Handle, Bridge Dispatcher, Lifecycle Controller, the
snapshot-delivery discipline), which is absent from the source tree.
-/

namespace GuiEel

/-- Single-quote character, kept out of string literals. -/
def sq : String := String.singleton (Char.ofNat 39)

/-- Tokens of the Python fragment used by the module: identifiers,
string literals, numeric literals and one-character operators. -/
inductive Tok
  | name (s : String)
  | str (s : String)
  | num (s : String)
  | op (s : String)
deriving Repr, DecidableEq

def isIdentStart (c : Char) : Bool := c.isAlpha || c = '_'

def isIdentChar (c : Char) : Bool := c.isAlphanum || c = '_'

/-- Scan a string literal body up to the closing quote `qc`.
The module's literals contain no escape sequences, so none are handled. -/
def scanString (qc : Char) : List Char → Option (String × List Char)
  | [] => none
  | c :: cs =>
    if c = qc then some ("", cs)
    else do
      let (s, rest) ← scanString qc cs
      some (String.mk (c :: s.data), rest)

def opChars : List Char :=
  ['(', ')', '[', ']', ',', '=', '.', '*', '@', ':', '%', '-']

/-- Tokenize one physical line.  Whitespace is skipped (so indentation is
ignored; it does not affect the validity of any line of this module), a
`#` starts a comment running to the end of the line, and an unknown
character or an unterminated string is a tokenization error. -/
def tokenizeAux : Nat → List Char → Option (List Tok)
  | 0, _ => none
  | _, [] => some []
  | fuel + 1, c :: cs =>
    if c = ' ' || c = Char.ofNat 9 then tokenizeAux fuel cs
    else if c = '#' then some []
    else if isIdentStart c then
      let p := (c :: cs).span isIdentChar
      do
        let ts ← tokenizeAux fuel p.2
        some (.name (String.mk p.1) :: ts)
    else if c.isDigit then
      let p := (c :: cs).span Char.isDigit
      do
        let ts ← tokenizeAux fuel p.2
        some (.num (String.mk p.1) :: ts)
    else if c = Char.ofNat 39 || c = Char.ofNat 34 then do
      let (s, rest) ← scanString c cs
      let ts ← tokenizeAux fuel rest
      some (.str s :: ts)
    else if c ∈ opChars then do
      let ts ← tokenizeAux fuel cs
      some (.op (String.singleton c) :: ts)
    else none

def tokenize (s : String) : Option (List Tok) :=
  tokenizeAux (s.length + 1) s.data

mutual

/-- Expressions of the Python fragment used by the module. -/
inductive PExpr
  | nameE (s : String)
  | strE (s : String)
  | numE (s : String)
  | attrE (e : PExpr) (f : String)
  | callE (f : PExpr) (args : List PArg)
  | modE (a b : PExpr)
  | listE (es : List PExpr)
  | tupleE (es : List PExpr)
deriving Repr

/-- A call argument: positional, or a keyword argument `k=v`. -/
inductive PArg
  | pos (e : PExpr)
  | kw (k : String) (e : PExpr)
deriving Repr

end

def headIsOp (s : String) : List Tok → Bool
  | .op t :: _ => t = s
  | _ => false

mutual

/-- Parse an expression: a postfix expression, optionally followed by
`%` and another postfix expression (the only binary operator the module
uses). -/
def parseExpr : Nat → List Tok → Option (PExpr × List Tok)
  | 0, _ => none
  | fuel + 1, ts => do
    let (a, ts1) ← parsePostfix fuel ts
    match ts1 with
    | .op "%" :: ts2 => do
      let (b, ts3) ← parsePostfix fuel ts2
      some (.modE a b, ts3)
    | _ => some (a, ts1)

/-- An atom followed by any number of trailers (`.name`, `(args)`). -/
def parsePostfix : Nat → List Tok → Option (PExpr × List Tok)
  | 0, _ => none
  | fuel + 1, ts => do
    let (a, ts1) ← parseAtom fuel ts
    parseTrailers fuel a ts1

def parseTrailers : Nat → PExpr → List Tok → Option (PExpr × List Tok)
  | 0, _, _ => none
  | fuel + 1, a, ts =>
    match ts with
    | .op "." :: .name f :: ts2 => parseTrailers fuel (.attrE a f) ts2
    | .op "(" :: ts2 => do
      let (args, ts3) ← parseArgs fuel ts2
      parseTrailers fuel (.callE a args) ts3
    | _ => some (a, ts)

/-- Parse the argument list of a call, consuming the closing `)`. -/
def parseArgs : Nat → List Tok → Option (List PArg × List Tok)
  | 0, _ => none
  | fuel + 1, ts =>
    if headIsOp ")" ts then some ([], ts.tail)
    else do
      let (a, ts1) ← parseArg fuel ts
      if headIsOp ")" ts1 then some ([a], ts1.tail)
      else if headIsOp "," ts1 then do
        let (rest, ts2) ← parseArgs fuel ts1.tail
        some (a :: rest, ts2)
      else none

def parseArg : Nat → List Tok → Option (PArg × List Tok)
  | 0, _ => none
  | fuel + 1, ts =>
    match ts with
    | .name k :: .op "=" :: ts2 => do
      let (v, ts3) ← parseExpr fuel ts2
      some (.kw k v, ts3)
    | _ => do
      let (e, ts1) ← parseExpr fuel ts
      some (.pos e, ts1)

/-- Parse a comma-separated expression list up to the closing bracket
`closer`, consuming it. -/
def parseItems : Nat → String → List Tok → Option (List PExpr × List Tok)
  | 0, _, _ => none
  | fuel + 1, closer, ts =>
    if headIsOp closer ts then some ([], ts.tail)
    else do
      let (e, ts1) ← parseExpr fuel ts
      if headIsOp closer ts1 then some ([e], ts1.tail)
      else if headIsOp "," ts1 then do
        let (rest, ts2) ← parseItems fuel closer ts1.tail
        some (e :: rest, ts2)
      else none

def parseAtom : Nat → List Tok → Option (PExpr × List Tok)
  | 0, _ => none
  | fuel + 1, ts =>
    match ts with
    | .name s :: ts2 => some (.nameE s, ts2)
    | .str s :: ts2 => some (.strE s, ts2)
    | .num s :: ts2 => some (.numE s, ts2)
    | .op "[" :: ts2 => do
      let (es, ts3) ← parseItems fuel "]" ts2
      some (.listE es, ts3)
    | .op "(" :: ts2 => do
      let (es, ts3) ← parseItems fuel ")" ts2
      match es with
      | [e] => some (e, ts3)
      | _ => some (.tupleE es, ts3)
    | _ => none

end

/-- Statements of the Python fragment used by the module. -/
inductive PStmt
  | importS (mods : List String)
  | fromImportS (m : String) (names : Option (List String))
  | assignS (target : PExpr) (value : PExpr)
  | exprS (e : PExpr)
  | decoratorS (e : PExpr)
  | defS (fname : String) (params : List String)
deriving Repr

/-- A comma-separated, non-empty list of identifiers. -/
def parseNameList : List Tok → Option (List String)
  | [.name s] => some [s]
  | .name s :: .op "," :: rest => do
    let ns ← parseNameList rest
    some (s :: ns)
  | _ => none

def parseParams : List Tok → Option (List String × List Tok)
  | .op ")" :: rest => some ([], rest)
  | .name p :: .op ")" :: rest => some ([p], rest)
  | .name p :: .op "," :: rest => do
    let (ps, r) ← parseParams rest
    some (p :: ps, r)
  | _ => none

/-- Valid assignment targets: identifiers, attribute references, and
tuples or lists of targets.  In particular the juxtaposition of two
identifiers (`int connectection`) is not a target and not an expression:
Python has no C-style declarations. -/
def isTarget : PExpr → Bool
  | .nameE _ => true
  | .attrE _ _ => true
  | .tupleE es => goList es
  | .listE es => goList es
  | _ => false
where
  goList : List PExpr → Bool
    | [] => true
    | e :: es => isTarget e && goList es

def exprFuel (ts : List Tok) : Nat := 8 * ts.length + 8

/-- Parse one logical line as a statement: `some none` for a blank or
comment-only line, `some (some s)` for statement `s`, `none` for a
syntax error (what CPython reports as `SyntaxError`). -/
def parseStmt (ts : List Tok) : Option (Option PStmt) :=
  match ts with
  | [] => some none
  | .name "import" :: rest =>
    (parseNameList rest).map (fun ns => some (.importS ns))
  | .name "from" :: .name m :: .name "import" :: rest =>
    match rest with
    | [.op "*"] => some (some (.fromImportS m none))
    | _ => (parseNameList rest).map (fun ns => some (.fromImportS m (some ns)))
  | .name "def" :: .name f :: .op "(" :: rest =>
    (match parseParams rest with
     | some (ps, [.op ":"]) => some (some (.defS f ps))
     | _ => none)
  | .op "@" :: rest =>
    (match parseExpr (exprFuel rest) rest with
     | some (e, []) => some (some (.decoratorS e))
     | _ => none)
  | _ =>
    match parseExpr (exprFuel ts) ts with
    | some (e, []) => some (some (.exprS e))
    | some (e, .op "=" :: rest) =>
      if isTarget e then
        match parseExpr (exprFuel rest) rest with
        | some (v, []) => some (some (.assignS e v))
        | _ => none
      else none
    | _ => none

def parseLine (s : String) : Option (Option PStmt) := do
  let ts ← tokenize s
  parseStmt ts

/-- Parse the whole module, line by line.  `none` as soon as any line is
invalid: CPython parses the complete module before executing anything,
so one bad line makes the whole module fail to compile. -/
def parseModule (lines : List String) : Option (List PStmt) :=
  lines.foldr
    (fun l acc => do
      let st ← parseLine l
      let rest ← acc
      match st with
      | none => some rest
      | some s => some (s :: rest))
    (some [])

/-- Observable effects of executing a module statement: loading the
shared native library (`CDLL(...)`), invoking a symbol of the loaded
library (`lib_monado.<sym>(...)`), and the eel UI-surface operations. -/
inductive Effect
  | loadLibrary (path : String)
  | nativeCall (sym : String)
  | uiInit
  | uiCallJs (fn : String)
  | uiStart
deriving Repr, DecidableEq

/-- First positional string argument of a call, or `""`. -/
def firstStrArg : List PArg → String
  | .pos (.strE p) :: _ => p
  | _ => ""

/-- Effect of one call, determined by its callee: `CDLL(path)` loads the
native library; `lib_monado.f(...)` calls native symbol `f`;
`eel.init`/`eel.start` manage the UI surface and any other `eel.f(...)`
invokes a Javascript function of the UI. -/
def callEffect (f : PExpr) (args : List PArg) : List Effect :=
  match f with
  | .nameE "CDLL" => [.loadLibrary (firstStrArg args)]
  | .attrE (.nameE "lib_monado") s => [.nativeCall s]
  | .attrE (.nameE "eel") "init" => [.uiInit]
  | .attrE (.nameE "eel") "start" => [.uiStart]
  | .attrE (.nameE "eel") fn => [.uiCallJs fn]
  | _ => []

mutual

def exprEffects : PExpr → List Effect
  | .nameE _ => []
  | .strE _ => []
  | .numE _ => []
  | .attrE e _ => exprEffects e
  | .modE a b => exprEffects a ++ exprEffects b
  | .listE es => exprListEffects es
  | .tupleE es => exprListEffects es
  | .callE f args => exprEffects f ++ argListEffects args ++ callEffect f args

def exprListEffects : List PExpr → List Effect
  | [] => []
  | e :: es => exprEffects e ++ exprListEffects es

def argListEffects : List PArg → List Effect
  | [] => []
  | .pos e :: as => exprEffects e ++ argListEffects as
  | .kw _ e :: as => exprEffects e ++ argListEffects as

end

/-- Effects of executing one top-level statement.  Imports, decorators
and `def` headers perform none of the effects tracked here. -/
def stmtEffects : PStmt → List Effect
  | .importS _ => []
  | .fromImportS _ _ => []
  | .defS _ _ => []
  | .decoratorS _ => []
  | .assignS _ v => exprEffects v
  | .exprS e => exprEffects e

/-- Effects of running the module: CPython compiles the whole module
first, so when parsing fails (`SyntaxError`) no statement executes and
the effect trace is empty. -/
def moduleEffects (lines : List String) : List Effect :=
  match parseModule lines with
  | none => []
  | some stmts => (stmts.map stmtEffects).flatten

/-! The module text of `src/xrt/targets/ctl/gui_eel.py`, one definition
per physical line. -/

def line01 : String := "import eel"
def line02 : String := "from bottle import app"
def line03 : String := "from ctypes import *"
def line04 : String := "import time"
def line05 : String := "import sys"
def line06 : String := ""
def line07 : String := "# Load the shared library"
def line08 : String := "lib_monado = CDLL(\"./libmonado-ctl-gui.so\")"
def line09 : String := "# cdll.LoadLibrary(\"./libmonado-ctl-gui.so\")"
def line10 : String := "# lib_monado.printf"
def line11 : String := ""
def line12 : String :=
  "eel.init(" ++ sq ++ "eel_web" ++ sq ++ ", allowed_extensions=[" ++ sq
    ++ ".js" ++ sq ++ "," ++ sq ++ ".html" ++ sq ++ "])"
def line13 : String := "# ctl.main_loop()"
def line14 : String := ""
def line15 : String := "@eel.expose"
def line16 : String := "def say_hello_py(x):"
def line17 : String := "    print(\"Hello from %s\" % x)"
def line18 : String := "    "
def line19 : String := "say_hello_py(" ++ sq ++ "Python World" ++ sq ++ ")"
def line20 : String := "int connectection = lib_monado.get_mode"
def line21 : String :=
  "eel.displayConnectedDevices(" ++ sq ++ "Javascript World !" ++ sq
    ++ ") #Calling the dISPL"
def line22 : String := ""
def line23 : String := "lib_monado.main_eel()"
def line24 : String :=
  "eel.start(" ++ sq ++ "gui_eel.html" ++ sq ++ ", mode=" ++ sq ++ "brave"
    ++ sq ++ " , size=(300, 200))"

def guiEelLines : List String :=
  [line01, line02, line03, line04, line05, line06, line07, line08, line09,
   line10, line11, line12, line13, line14, line15, line16, line17, line18,
   line19, line20, line21, line22, line23, line24]

/-- The module with the invalid line 20 removed, used to check that the
effect interpreter is not vacuous. -/
def guiEelLinesNo20 : List String :=
  [line01, line02, line03, line04, line05, line06, line07, line08, line09,
   line10, line11, line12, line13, line14, line15, line16, line17, line18,
   line19, line21, line22, line23, line24]

end GuiEel

namespace Bridge

/-! Part 2.  The bridge design of spec sections 3 to 7 (Native Control
Handle, Bridge Dispatcher, Lifecycle Controller, snapshot delivery) has
no implementation in the source tree, so it is modelled here from the
specification text. -/

/-- Modelled from the spec: an opaque mode identifier. -/
abbrev ModeId := Nat

/-- Modelled from the spec: device connection state. -/
inductive ConnState
  | connected
  | disconnected
deriving DecidableEq, Repr

/-- Modelled from the spec: a DeviceDescriptor, immutable once
constructed. -/
structure DeviceDescriptor where
  id : Nat
  name : String
  connectionState : ConnState
deriving DecidableEq, Repr

/-- Modelled from the spec: a DeviceRegistrySnapshot is an ordered
sequence of DeviceDescriptor plus the current mode. -/
structure DeviceRegistrySnapshot where
  devices : List DeviceDescriptor
  currentMode : ModeId
deriving DecidableEq, Repr

/-- The native-side state at one instant: the active mode and the set of
connected devices, as the opaque native library would report them. -/
structure NativeState where
  mode : ModeId
  devices : List DeviceDescriptor
deriving DecidableEq, Repr

/-- The snapshot describing one single point of native-side state. -/
def snapshotOf (st : NativeState) : DeviceRegistrySnapshot :=
  ⟨st.devices, st.mode⟩

/-! Native Control Handle and library loading (spec sections 4.1 and 6),
modelled from the spec: the library is an opaque symbol table, the
handle is configured with a symbol-name mapping, and all required
symbols are resolved during `loadLibrary`. -/

/-- Modelled from the spec: the native library surface, an opaque table
of exported symbols. -/
structure NativeLibrary where
  symbols : List (String × Nat)
deriving DecidableEq, Repr

/-- Modelled from the spec: the configurable symbol-name mapping for the
four required native entry points. -/
structure SymbolMapping where
  listDevicesSym : String
  getModeSym : String
  setModeSym : String
  runControlLoopSym : String
deriving DecidableEq, Repr

/-- The required symbols, in resolution order. -/
def SymbolMapping.required (m : SymbolMapping) : List String :=
  [m.listDevicesSym, m.getModeSym, m.setModeSym, m.runControlLoopSym]

/-- Modelled from the spec: LoadError — missing or incompatible native
library, or an unresolved required symbol. -/
inductive LoadError
  | libraryNotFound (path : String)
  | missingSymbol (sym : String)
deriving DecidableEq, Repr

/-- Modelled from the spec: the NativeCallHandle owns the resolved
symbols for the session. -/
structure NativeCallHandle where
  listDevicesFn : Nat
  getModeFn : Nat
  setModeFn : Nat
  runControlLoopFn : Nat
deriving DecidableEq, Repr

def resolveSymbol (l : NativeLibrary) (s : String) : Option Nat :=
  l.symbols.lookup s

/-- Modelled from the spec: `loadLibrary(path)` returns a
NativeCallHandle or fails with LoadError; every required symbol is
resolved here, at load time, one resolution per symbol, and the list of
resolution events performed during the load is returned alongside the
handle.  The first unresolvable required symbol aborts the load. -/
def loadLibrary (lib : Option NativeLibrary) (path : String)
    (m : SymbolMapping) :
    Except LoadError (NativeCallHandle × List (String × Nat)) :=
  match lib with
  | none => .error (.libraryNotFound path)
  | some l =>
    match resolveSymbol l m.listDevicesSym with
    | none => .error (.missingSymbol m.listDevicesSym)
    | some f1 =>
      match resolveSymbol l m.getModeSym with
      | none => .error (.missingSymbol m.getModeSym)
      | some f2 =>
        match resolveSymbol l m.setModeSym with
        | none => .error (.missingSymbol m.setModeSym)
        | some f3 =>
          match resolveSymbol l m.runControlLoopSym with
          | none => .error (.missingSymbol m.runControlLoopSym)
          | some f4 =>
            .ok (⟨f1, f2, f3, f4⟩,
              [(m.listDevicesSym, f1), (m.getModeSym, f2),
               (m.setModeSym, f3), (m.runControlLoopSym, f4)])

/-! Native calls and the Bridge Dispatcher (spec sections 4.1 and 4.3),
modelled from the spec.  Whether the underlying native call succeeds is
decided by the opaque native library; the model takes that outcome as a
boolean oracle argument. -/

/-- Modelled from the spec: NativeCallError, the recoverable failure of
one native call. -/
inductive NativeCallError
  | callFailed (code : Nat)
deriving DecidableEq, Repr

/-- Stable error code carried by an Error event. -/
def errorCode : NativeCallError → Nat
  | .callFailed c => c

def nativeListDevices (ok : Bool) (st : NativeState) :
    Except NativeCallError (List DeviceDescriptor) :=
  if ok then .ok st.devices else .error (.callFailed 1)

def nativeGetMode (ok : Bool) (st : NativeState) :
    Except NativeCallError ModeId :=
  if ok then .ok st.mode else .error (.callFailed 2)

def nativeSetMode (ok : Bool) (x : ModeId) (st : NativeState) :
    Except NativeCallError NativeState :=
  if ok then .ok { st with mode := x } else .error (.callFailed 3)

/-- Modelled from the spec: the operations of a BridgeRequest. -/
inductive BridgeOp
  | listDevices
  | getMode
  | setMode (m : ModeId)
deriving DecidableEq, Repr

/-- Modelled from the spec: a BridgeRequest, created by the UI Channel
on user action. -/
structure BridgeRequest where
  operation : BridgeOp
deriving DecidableEq, Repr

/-- Modelled from the spec: a BridgeEvent of kind RegistryUpdated,
ModeChanged or Error, consumed by the UI Channel. -/
inductive BridgeEvent
  | registryUpdated (snap : DeviceRegistrySnapshot)
  | modeChanged (m : ModeId)
  | error (code : Nat) (msg : String)
deriving DecidableEq, Repr

/-- Modelled from the spec: `handle(BridgeRequest) -> BridgeEvent` of the
Bridge Dispatcher — the corresponding native call is performed and its
outcome is turned into a BridgeEvent; a native error becomes an Error
event carrying the stable error code, and the dispatcher is a total
function, so no native failure escapes it. -/
def handle (ok : Bool) (r : BridgeRequest) (st : NativeState) :
    BridgeEvent × NativeState :=
  match r.operation with
  | .listDevices =>
    match nativeListDevices ok st with
    | .ok ds =>
      match nativeGetMode ok st with
      | .ok md => (.registryUpdated ⟨ds, md⟩, st)
      | .error e => (.error (errorCode e) "native call failed", st)
    | .error e => (.error (errorCode e) "native call failed", st)
  | .getMode =>
    match nativeGetMode ok st with
    | .ok md => (.modeChanged md, st)
    | .error e => (.error (errorCode e) "native call failed", st)
  | .setMode x =>
    match nativeSetMode ok x st with
    | .ok st2 => (.modeChanged x, st2)
    | .error e => (.error (errorCode e) "native call failed", st)

/-- The stable error code an operation's failure produces. -/
def opErrorCode : BridgeOp → Nat
  | .listDevices => 1
  | .getMode => 2
  | .setMode _ => 3

/-! Startup and exit codes (spec sections 4.5, 6 and 7), modelled from
the spec: LoadError is fatal during `Loading` and is the only condition
terminating the process; a normal shutdown exits 0. -/

/-- Coarse system-level events of one run. -/
inductive SysEvent
  | loadFailed (e : LoadError)
  | controlLoopStarted
  | uiStarted
  | cleanShutdown
deriving DecidableEq, Repr

/-- Modelled from the spec: the startup pipeline — load the library
during `Loading`; on LoadError exit non-zero with no UI surface started;
otherwise start the control loop and the UI surface, and exit 0 on a
normal shutdown. -/
def runSystem (lib : Option NativeLibrary) (path : String)
    (m : SymbolMapping) : Nat × List SysEvent :=
  match loadLibrary lib path m with
  | .error e => (1, [.loadFailed e])
  | .ok _ => (0, [.controlLoopStarted, .uiStarted, .cleanShutdown])

/-! Snapshot delivery (spec sections 4.2 and 4.3), modelled from the
spec: push `RegistryUpdated` only when the new snapshot differs from the
last delivered one, by value equality. -/

/-- Modelled from the spec: deliver one fresh snapshot given the last
delivered one; returns the pushed UI events and the new stored
last-delivered snapshot. -/
def refreshDeliver (snap : DeviceRegistrySnapshot)
    (last : Option DeviceRegistrySnapshot) :
    List BridgeEvent × Option DeviceRegistrySnapshot :=
  if last = some snap then ([], last)
  else ([.registryUpdated snap], some snap)

/-- Deliver a whole sequence of produced snapshots in order. -/
def deliverAll (snaps : List DeviceRegistrySnapshot)
    (last : Option DeviceRegistrySnapshot) : List BridgeEvent :=
  match snaps with
  | [] => []
  | s :: rest =>
    (refreshDeliver s last).1 ++ deliverAll rest (refreshDeliver s last).2

/-! Lifecycle Controller (spec section 4.5) and execution contexts
(spec section 5), modelled from the spec. -/

/-- Modelled from the spec: the two execution contexts — the UI-serving
context and the dedicated native control-loop context. -/
inductive ExecCtx
  | uiCtx
  | loopCtx
deriving DecidableEq, Repr

/-- The long-running tasks the Lifecycle Controller starts. -/
inductive TaskKind
  | controlLoop
  | uiService
deriving DecidableEq, Repr

/-- Modelled from the spec: the Lifecycle Controller's states. -/
inductive LState
  | uninitialized
  | loading
  | ready
  | running
  | shuttingDown
  | stopped
deriving DecidableEq, Repr

/-- Modelled from the spec: on `Ready → Running` the control loop is
started on its dedicated execution context and the UI Channel is started
concurrently on the UI-serving context. -/
def spawnsOnStart : List (TaskKind × ExecCtx) :=
  [(.controlLoop, .loopCtx), (.uiService, .uiCtx)]

/-- Modelled from the spec: the Lifecycle Controller's transitions,
labelled by the tasks each transition spawns.  `loadFail` is the fatal
LoadError path of `Loading`. -/
inductive LStep : LState → List (TaskKind × ExecCtx) → LState → Prop
  | beginLoad : LStep .uninitialized [] .loading
  | loadOk : LStep .loading [] .ready
  | loadFail : LStep .loading [] .stopped
  | start : LStep .ready spawnsOnStart .running
  | beginShutdown : LStep .running [] .shuttingDown
  | finishStop : LStep .shuttingDown [] .stopped

/-- Executions of the lifecycle machine, accumulating spawned tasks. -/
inductive LTrace : LState → List (TaskKind × ExecCtx) → LState → Prop
  | refl (s) : LTrace s [] s
  | step {a b c evs1 evs2} :
      LStep a evs1 b → LTrace b evs2 c → LTrace a (evs1 ++ evs2) c

/-- Position of each state in the lifecycle order. -/
def lidx : LState → Nat
  | .uninitialized => 0
  | .loading => 1
  | .ready => 2
  | .running => 3
  | .shuttingDown => 4
  | .stopped => 5

/-- Modelled from the spec: `Running` is the only state in which
BridgeRequests are accepted. -/
def accepts : LState → Bool
  | .running => true
  | _ => false

/-- The lifecycle reaches `t` from `s` by some execution. -/
def Reaches (s t : LState) : Prop := ∃ evs, LTrace s evs t

/-! Serialized dispatcher access (spec sections 4.3, 5 and 8), modelled
from the spec: worker threads issue native calls only while holding
exclusive access to the Native Control Handle, and a snapshot reads the
device list and the mode inside one such critical section. -/

/-- What one worker thread does against the Native Control Handle: a
native-side mutation (the control loop or a SetMode request changing the
mode and the reported devices), or building a registry snapshot. -/
inductive WorkOp
  | mutate (x : ModeId) (ds : List DeviceDescriptor)
  | snapshot
deriving DecidableEq, Repr

/-- Phase of one worker thread.  `entered` and `midSnapshot` hold
exclusive access; `midSnapshot ds` has read the device list `ds` and not
yet the mode. -/
inductive TPhase
  | idle
  | entered
  | midSnapshot (ds : List DeviceDescriptor)
  | finished (out : Option DeviceRegistrySnapshot)
deriving DecidableEq, Repr

def inCritical : TPhase → Bool
  | .entered => true
  | .midSnapshot _ => true
  | _ => false

/-- State of the dispatcher model: who holds exclusive access, the
native-side state, and each worker thread's operation and phase. -/
structure DState where
  lock : Option Nat
  nst : NativeState
  threads : List (WorkOp × TPhase)
deriving DecidableEq, Repr

/-- Modelled from the spec: interleaved steps of the worker threads.
Exclusive access is acquired only when free; every native call (the
mutation, the device-list read, the mode read) happens only while its
thread holds exclusive access. -/
inductive DStep : DState → DState → Prop
  | acquire (s : DState) (t : Nat) (op : WorkOp) :
      s.lock = none →
      s.threads[t]? = some (op, .idle) →
      DStep s ⟨some t, s.nst, s.threads.set t (op, .entered)⟩
  | callMutate (s : DState) (t : Nat) (x : ModeId)
      (ds : List DeviceDescriptor) :
      s.lock = some t →
      s.threads[t]? = some (.mutate x ds, .entered) →
      DStep s ⟨none, ⟨x, ds⟩, s.threads.set t (.mutate x ds, .finished none)⟩
  | readDevices (s : DState) (t : Nat) :
      s.lock = some t →
      s.threads[t]? = some (.snapshot, .entered) →
      DStep s ⟨some t, s.nst,
        s.threads.set t (.snapshot, .midSnapshot s.nst.devices)⟩
  | finishSnapshot (s : DState) (t : Nat) (ds : List DeviceDescriptor) :
      s.lock = some t →
      s.threads[t]? = some (.snapshot, .midSnapshot ds) →
      DStep s ⟨none, s.nst,
        s.threads.set t (.snapshot, .finished (some ⟨ds, s.nst.mode⟩))⟩

/-- Initial dispatcher state: no one holds access, all threads idle. -/
def initState (ops : List WorkOp) (st0 : NativeState) : DState :=
  ⟨none, st0, ops.map (fun op => (op, .idle))⟩

/-- Exclusive access discipline: a thread in its critical section is the
lock holder. -/
def LockInv (s : DState) : Prop :=
  ∀ (t : Nat) (op : WorkOp) (p : TPhase),
    s.threads[t]? = some (op, p) → inCritical p = true →
    s.lock = some t

/-- Snapshot consistency: a device list read inside a snapshot's
critical section is still the current native device list. -/
def SnapInv (s : DState) : Prop :=
  ∀ (t : Nat) (op : WorkOp) (ds : List DeviceDescriptor),
    s.threads[t]? = some (op, .midSnapshot ds) →
    ds = s.nst.devices

end Bridge

/-! Concrete inputs used by the witness theorems. -/

/-- A native library exporting all four required symbols. -/
def witLib : Bridge.NativeLibrary :=
  ⟨[("monado_list_devices", 10), ("monado_get_mode", 11),
    ("monado_set_mode", 12), ("monado_run_control_loop", 13)]⟩

def witMap : Bridge.SymbolMapping :=
  ⟨"monado_list_devices", "monado_get_mode", "monado_set_mode",
   "monado_run_control_loop"⟩

/-- A mapping whose first required symbol the library does not export. -/
def witMapMissing : Bridge.SymbolMapping :=
  ⟨"monado_absent", "monado_get_mode", "monado_set_mode",
   "monado_run_control_loop"⟩

def witDevice : Bridge.DeviceDescriptor := ⟨1, "hmd", .connected⟩

def witNState : Bridge.NativeState := ⟨5, [witDevice]⟩

def witOps : List Bridge.WorkOp := [.snapshot, .mutate 7 []]

/-- The dispatcher state after thread 0 acquires exclusive access. -/
def witAcquired : Bridge.DState :=
  ⟨some 0, witNState, [(.snapshot, .entered), (.mutate 7 [], .idle)]⟩

/-- The dispatcher state after thread 0 additionally reads the device
list inside its critical section. -/
def witMidSnap : Bridge.DState :=
  ⟨some 0, witNState,
   [(.snapshot, .midSnapshot [witDevice]), (.mutate 7 [], .idle)]⟩

/-! Theorems. -/

open GuiEel

/-- Sanity check that the embedding is not vacuous: with line 20 removed
the module parses, and running it loads the library, initializes the UI,
calls into Javascript, calls the native symbol `main_eel` and starts the
UI surface. -/
theorem moduleEffects_without_line20 :
    moduleEffects guiEelLinesNo20 =
      [.loadLibrary "./libmonado-ctl-gui.so", .uiInit,
       .uiCallJs "displayConnectedDevices", .nativeCall "main_eel",
       .uiStart] := by rfl

/-- Every line of the module other than line 20 is a valid statement of
the embedded grammar, so line 20 is the only source of the failure. -/
theorem guiEel_other_lines_parse :
    (guiEelLinesNo20.map parseLine).all Option.isSome = true := by rfl

/-- C1: line 20 of `gui_eel.py` (`int connectection = lib_monado.get_mode`)
is not a valid Python statement, so parsing the module fails
(`SyntaxError`) before any statement runs; consequently the module's
effect trace is empty — in particular no native library is loaded, no
native call is made and no UI surface is started. -/
theorem C1_syntaxError_nothing_runs :
    parseLine line20 = none ∧
    parseModule guiEelLines = none ∧
    moduleEffects guiEelLines = [] := by
  exact ⟨rfl, rfl, rfl⟩

/-- C2: every required native function symbol is resolved exactly once at
library-load time (the load's resolution log lists exactly the required
symbols, once each when the mapping is duplicate-free), and an
unresolvable required symbol makes `loadLibrary` itself fail with a
LoadError instead of deferring the failure to first use. -/
theorem C2_symbols_resolved_once_at_load :
    ∀ (l : Bridge.NativeLibrary) (path : String) (m : Bridge.SymbolMapping),
      (∀ (h : Bridge.NativeCallHandle) (evs : List (String × Nat)),
        Bridge.loadLibrary (some l) path m = .ok (h, evs) →
        evs.map Prod.fst = m.required ∧
        (m.required.Nodup → ∀ s, s ∈ m.required →
          (evs.map Prod.fst).count s = 1)) ∧
      (∀ s, s ∈ m.required → Bridge.resolveSymbol l s = none →
        ∃ e, Bridge.loadLibrary (some l) path m = .error e) := by
  intro l path m
  constructor
  · intro h evs hok
    rcases h1 : Bridge.resolveSymbol l m.listDevicesSym with _ | f1 <;>
      rcases h2 : Bridge.resolveSymbol l m.getModeSym with _ | f2 <;>
      rcases h3 : Bridge.resolveSymbol l m.setModeSym with _ | f3 <;>
      rcases h4 : Bridge.resolveSymbol l m.runControlLoopSym with _ | f4 <;>
      simp only [Bridge.loadLibrary, h1, h2, h3, h4] at hok <;>
      try exact Except.noConfusion hok
    simp only [Except.ok.injEq, Prod.mk.injEq] at hok
    obtain ⟨-, rfl⟩ := hok
    refine ⟨by simp [Bridge.SymbolMapping.required], ?_⟩
    intro hnd s hs
    rw [show (([(m.listDevicesSym, f1), (m.getModeSym, f2),
        (m.setModeSym, f3), (m.runControlLoopSym, f4)]).map Prod.fst)
        = m.required from by simp [Bridge.SymbolMapping.required]]
    exact List.count_eq_one_of_mem hnd hs
  · intro s hs hnone
    rcases h1 : Bridge.resolveSymbol l m.listDevicesSym with _ | f1
    · exact ⟨.missingSymbol m.listDevicesSym,
        by simp [Bridge.loadLibrary, h1]⟩
    rcases h2 : Bridge.resolveSymbol l m.getModeSym with _ | f2
    · exact ⟨.missingSymbol m.getModeSym,
        by simp [Bridge.loadLibrary, h1, h2]⟩
    rcases h3 : Bridge.resolveSymbol l m.setModeSym with _ | f3
    · exact ⟨.missingSymbol m.setModeSym,
        by simp [Bridge.loadLibrary, h1, h2, h3]⟩
    rcases h4 : Bridge.resolveSymbol l m.runControlLoopSym with _ | f4
    · exact ⟨.missingSymbol m.runControlLoopSym,
        by simp [Bridge.loadLibrary, h1, h2, h3, h4]⟩
    simp only [Bridge.SymbolMapping.required, List.mem_cons,
      List.not_mem_nil, or_false] at hs
    rcases hs with rfl | rfl | rfl | rfl <;> simp_all

/-- Witness for C2 at a concrete library and mapping: on a library
exporting all four symbols the resolution log is exactly the required
list, and with the first required symbol absent the load fails with a
LoadError. -/
theorem C2_witness :
    ([("monado_list_devices", (10 : Nat)), ("monado_get_mode", 11),
      ("monado_set_mode", 12),
      ("monado_run_control_loop", 13)].map Prod.fst = witMap.required) ∧
    (∃ e, Bridge.loadLibrary (some witLib) "./libmonado-ctl-gui.so"
        witMapMissing = .error e) :=
  ⟨((C2_symbols_resolved_once_at_load witLib "./libmonado-ctl-gui.so"
        witMap).1 ⟨10, 11, 12, 13⟩ _ rfl).1,
   (C2_symbols_resolved_once_at_load witLib "./libmonado-ctl-gui.so"
        witMapMissing).2 "monado_absent" (by decide) (by rfl)⟩

/-- C3: when the native library fails to load, a LoadError is raised, the
process exits with the non-zero code 1 and the run's event trace is the
load failure alone, so no UI surface is ever started; when the load
succeeds, a normal shutdown exits with code 0. -/
theorem C3_loadError_exits_nonzero_without_ui :
    ∀ (lib : Option Bridge.NativeLibrary) (path : String)
      (m : Bridge.SymbolMapping),
      (∀ e, Bridge.loadLibrary lib path m = .error e →
        (Bridge.runSystem lib path m).1 = 1 ∧
        (Bridge.runSystem lib path m).2 = [.loadFailed e]) ∧
      (∀ (h : Bridge.NativeCallHandle) (evs : List (String × Nat)),
        Bridge.loadLibrary lib path m = .ok (h, evs) →
        (Bridge.runSystem lib path m).1 = 0 ∧
        (Bridge.runSystem lib path m).2
          = [.controlLoopStarted, .uiStarted, .cleanShutdown]) := by
  intro lib path m
  constructor
  · intro e he
    simp [Bridge.runSystem, he]
  · intro h evs hok
    simp [Bridge.runSystem, hok]

/-- Witness for C3: loading from the missing path `/opt/missing.so`
(no library present) raises a LoadError, exits 1 with only the failure
event; the complete load over `witLib` exits 0. -/
theorem C3_witness :
    ((Bridge.runSystem none "/opt/missing.so" witMap).1 = 1 ∧
     (Bridge.runSystem none "/opt/missing.so" witMap).2
        = [.loadFailed (.libraryNotFound "/opt/missing.so")]) ∧
    (Bridge.runSystem (some witLib) "./libmonado-ctl-gui.so" witMap).1 = 0 :=
  ⟨(C3_loadError_exits_nonzero_without_ui none "/opt/missing.so" witMap).1
      (.libraryNotFound "/opt/missing.so") rfl,
   ((C3_loadError_exits_nonzero_without_ui (some witLib)
      "./libmonado-ctl-gui.so" witMap).2 ⟨10, 11, 12, 13⟩ _ rfl).1⟩

/-- C4: a failing native call is translated at the Dispatcher boundary
into an Error event carrying the operation's stable error code, with the
native state unchanged; and only a LoadError can terminate the process
with a non-zero exit code. -/
theorem C4_dispatcher_translates_native_errors :
    ∀ (r : Bridge.BridgeRequest) (st : Bridge.NativeState),
      (Bridge.handle false r st).1
        = .error (Bridge.opErrorCode r.operation) "native call failed" ∧
      (Bridge.handle false r st).2 = st ∧
      (∀ (lib : Option Bridge.NativeLibrary) (path : String)
          (m : Bridge.SymbolMapping),
        (Bridge.runSystem lib path m).1 ≠ 0 →
        ∃ e, Bridge.loadLibrary lib path m = .error e) := by
  intro r st
  refine ⟨?_, ?_, ?_⟩
  · rcases r with ⟨op⟩
    cases op <;> simp [Bridge.handle, Bridge.nativeListDevices,
      Bridge.nativeGetMode, Bridge.nativeSetMode, Bridge.errorCode,
      Bridge.opErrorCode]
  · rcases r with ⟨op⟩
    cases op <;> simp [Bridge.handle, Bridge.nativeListDevices,
      Bridge.nativeGetMode, Bridge.nativeSetMode]
  · intro lib path m hne
    rcases he : Bridge.loadLibrary lib path m with e | ok
    · exact ⟨e, rfl⟩
    · exact absurd (by simp [Bridge.runSystem, he]) hne

/-- Witness for C4: a failing `setMode` request over a concrete state
produces the Error event with stable code 3 and leaves the state intact,
and the non-zero exit of the missing-library run is explained by a
LoadError. -/
theorem C4_witness :
    (Bridge.handle false ⟨.setMode 7⟩ witNState).1
      = .error 3 "native call failed" ∧
    (Bridge.handle false ⟨.setMode 7⟩ witNState).2 = witNState ∧
    (∃ e, Bridge.loadLibrary none "/opt/missing.so" witMap = .error e) :=
  ⟨(C4_dispatcher_translates_native_errors ⟨.setMode 7⟩ witNState).1,
   (C4_dispatcher_translates_native_errors ⟨.setMode 7⟩ witNState).2.1,
   (C4_dispatcher_translates_native_errors ⟨.setMode 7⟩ witNState).2.2
      none "/opt/missing.so" witMap (by decide)⟩

/-- C7: a successful `setMode(X)` yields the ModeChanged X event and an
immediately following `getMode()` returns X; a failing `setMode(X)`
yields the Error event (stable code 3) — not a ModeChanged event — and
leaves the native state unchanged. -/
theorem C7_setMode_then_getMode :
    ∀ (x : Bridge.ModeId) (st : Bridge.NativeState),
      (Bridge.handle true ⟨.setMode x⟩ st).1 = .modeChanged x ∧
      (Bridge.handle true ⟨.getMode⟩
          (Bridge.handle true ⟨.setMode x⟩ st).2).1 = .modeChanged x ∧
      (Bridge.handle false ⟨.setMode x⟩ st).1
        = .error 3 "native call failed" ∧
      (Bridge.handle false ⟨.setMode x⟩ st).2 = st := by
  intro x st
  refine ⟨?_, ?_, ?_, ?_⟩ <;>
    simp [Bridge.handle, Bridge.nativeSetMode, Bridge.nativeGetMode,
      Bridge.errorCode]

/-- C8: a `registryUpdated` event is suppressed exactly when the fresh
snapshot is value-equal to the last delivered one; the stored
last-delivered snapshot always becomes the fresh one; and over any
snapshot sequence an immediately repeated identical snapshot delivers
nothing extra (idempotent suppression). -/
theorem C8_registryUpdated_suppression :
    ∀ (snap : Bridge.DeviceRegistrySnapshot)
      (last : Option Bridge.DeviceRegistrySnapshot)
      (rest : List Bridge.DeviceRegistrySnapshot),
      ((Bridge.refreshDeliver snap last).1 = [] ↔ last = some snap) ∧
      (Bridge.refreshDeliver snap last).2 = some snap ∧
      Bridge.deliverAll (snap :: snap :: rest) last
        = Bridge.deliverAll (snap :: rest) last := by
  intro snap last rest
  refine ⟨?_, ?_, ?_⟩
  · by_cases h : last = some snap <;> simp [Bridge.refreshDeliver, h]
  · by_cases h : last = some snap <;> simp [Bridge.refreshDeliver, h]
  · by_cases h : last = some snap <;>
      simp [Bridge.deliverAll, Bridge.refreshDeliver, h]

/-- Any lifecycle execution ending in `Running` either starts there or
passes through `Ready` (the only state with a transition into
`Running`). -/
theorem ltrace_running_through_ready
    {a : Bridge.LState} {evs : List (Bridge.TaskKind × Bridge.ExecCtx)}
    {b : Bridge.LState} (h : Bridge.LTrace a evs b) :
    b = .running → a = .running ∨ Bridge.Reaches a .ready := by
  induction h with
  | refl s => exact fun hb => .inl hb
  | step hstep htr ih =>
    intro hb
    rcases ih hb with rfl | ⟨evs1, htr1⟩
    · cases hstep
      exact .inr ⟨[], .refl _⟩
    · exact .inr ⟨_, Bridge.LTrace.step hstep htr1⟩

/-- C5: in every lifecycle execution, every spawn of the blocking native
control loop is on its dedicated `loopCtx` — never on the UI-serving
context — and the only task ever placed on the UI-serving context is the
UI service, so that context stays free of the blocking loop. -/
theorem C5_control_loop_never_on_ui_context :
    ∀ (a b : Bridge.LState) (evs : List (Bridge.TaskKind × Bridge.ExecCtx)),
      Bridge.LTrace a evs b →
      ∀ (k : Bridge.TaskKind) (c : Bridge.ExecCtx), (k, c) ∈ evs →
        (k = .controlLoop → c = .loopCtx) ∧
        (c = .uiCtx → k = .uiService) := by
  intro a b evs htr
  induction htr with
  | refl s =>
    intro k c hmem
    simp at hmem
  | step hstep htr ih =>
    intro k c hmem
    rcases List.mem_append.mp hmem with h1 | h2
    · cases hstep <;> simp [Bridge.spawnsOnStart] at h1
      rcases h1 with ⟨rfl, rfl⟩ | ⟨rfl, rfl⟩ <;> simp
    · exact ih k c h2

/-- Witness for C5: the concrete execution Uninitialized → Loading →
Ready → Running spawns exactly the two tasks, and the theorem applies to
it. -/
theorem C5_witness :
    Bridge.LTrace .uninitialized Bridge.spawnsOnStart .running ∧
    Bridge.ExecCtx.loopCtx = Bridge.ExecCtx.loopCtx ∧
    Bridge.TaskKind.uiService = Bridge.TaskKind.uiService := by
  have htr0 : Bridge.LTrace Bridge.LState.uninitialized
      ([] ++ ([] ++ (Bridge.spawnsOnStart ++ [])))
      Bridge.LState.running :=
    Bridge.LTrace.step Bridge.LStep.beginLoad
      (Bridge.LTrace.step Bridge.LStep.loadOk
        (Bridge.LTrace.step Bridge.LStep.start (Bridge.LTrace.refl _)))
  have htr : Bridge.LTrace Bridge.LState.uninitialized
      Bridge.spawnsOnStart Bridge.LState.running := by
    simpa using htr0
  refine ⟨htr, ?_, ?_⟩
  · exact (C5_control_loop_never_on_ui_context _ _ _ htr
      Bridge.TaskKind.controlLoop Bridge.ExecCtx.loopCtx
      (by simp [Bridge.spawnsOnStart])).1 rfl
  · exact (C5_control_loop_never_on_ui_context _ _ _ htr
      Bridge.TaskKind.uiService Bridge.ExecCtx.uiCtx
      (by simp [Bridge.spawnsOnStart])).2 rfl

/-- C9: every lifecycle transition strictly increases the state's
position in the order Uninitialized → Loading → Ready → Running →
ShuttingDown → Stopped; the only transition into `Running` is from
`Ready`; every execution reaching `Running` passes through `Ready`; and
`Running` is the only state accepting BridgeRequests. -/
theorem C9_lifecycle_monotonic_ordered :
    (∀ (a b : Bridge.LState)
        (evs : List (Bridge.TaskKind × Bridge.ExecCtx)),
      Bridge.LStep a evs b → Bridge.lidx a < Bridge.lidx b) ∧
    (∀ (a : Bridge.LState) (evs : List (Bridge.TaskKind × Bridge.ExecCtx)),
      Bridge.LStep a evs .running → a = .ready) ∧
    (∀ (a : Bridge.LState) (evs : List (Bridge.TaskKind × Bridge.ExecCtx)),
      Bridge.LTrace a evs .running →
        a = .running ∨ Bridge.Reaches a .ready) ∧
    (∀ s : Bridge.LState, Bridge.accepts s = true ↔ s = .running) := by
  refine ⟨?_, ?_, ?_, ?_⟩
  · intro a b evs h
    cases h <;> decide
  · intro a evs h
    cases h
    rfl
  · intro a evs h
    exact ltrace_running_through_ready h rfl
  · intro s
    cases s <;> decide

/-- Witness for C9 at concrete steps and a concrete execution: the first
transition increases the order position, and the Ready → Running
execution is already at or past Ready. -/
theorem C9_witness :
    Bridge.LStep .uninitialized [] .loading ∧
    Bridge.lidx .uninitialized < Bridge.lidx .loading ∧
    Bridge.LTrace .ready Bridge.spawnsOnStart .running ∧
    Bridge.Reaches .ready .ready := by
  have h1 : Bridge.LStep Bridge.LState.uninitialized []
      Bridge.LState.loading := Bridge.LStep.beginLoad
  have htr0 : Bridge.LTrace Bridge.LState.ready
      (Bridge.spawnsOnStart ++ []) Bridge.LState.running :=
    Bridge.LTrace.step Bridge.LStep.start (Bridge.LTrace.refl _)
  have htr : Bridge.LTrace Bridge.LState.ready Bridge.spawnsOnStart
      Bridge.LState.running := by simpa using htr0
  refine ⟨h1, C9_lifecycle_monotonic_ordered.1 _ _ _ h1, htr, ?_⟩
  rcases C9_lifecycle_monotonic_ordered.2.2.1 _ _ htr with h | h
  · exact absurd h (by decide)
  · exact h

/-- The initial dispatcher state satisfies both invariants: all threads
are idle. -/
theorem initState_inv (ops : List Bridge.WorkOp)
    (st0 : Bridge.NativeState) :
    Bridge.LockInv (Bridge.initState ops st0) ∧
    Bridge.SnapInv (Bridge.initState ops st0) := by
  constructor
  · intro t op p hget hcrit
    simp only [Bridge.initState, List.getElem?_map] at hget
    rcases hop : ops[t]? with _ | op2 <;> rw [hop] at hget <;> simp at hget
    obtain ⟨-, rfl⟩ := hget
    simp [Bridge.inCritical] at hcrit
  · intro t op ds hget
    simp only [Bridge.initState, List.getElem?_map] at hget
    rcases hop : ops[t]? with _ | op2 <;> rw [hop] at hget <;> simp at hget

/-- One dispatcher step preserves both the exclusive-access invariant
and the snapshot-consistency invariant. -/
theorem dstep_preserves_inv {s s2 : Bridge.DState} (h : Bridge.DStep s s2)
    (hl : Bridge.LockInv s) (hs : Bridge.SnapInv s) :
    Bridge.LockInv s2 ∧ Bridge.SnapInv s2 := by
  cases h with
  | acquire t op hlock hget =>
    have hlen : t < s.threads.length := by
      rcases List.getElem?_eq_some_iff.mp hget with ⟨hlt, -⟩
      exact hlt
    constructor
    · intro u op2 p2 hget2 hcrit2
      by_cases hut : u = t
      · subst hut
        rfl
      · rw [List.getElem?_set_ne (fun hh => hut hh.symm)] at hget2
        have hcontra := hl u op2 p2 hget2 hcrit2
        rw [hlock] at hcontra
        exact Option.noConfusion hcontra
    · intro u op2 ds2 hget2
      by_cases hut : u = t
      · subst hut
        rw [List.getElem?_set_self hlen] at hget2
        simp at hget2
      · rw [List.getElem?_set_ne (fun hh => hut hh.symm)] at hget2
        exact hs u op2 ds2 hget2
  | callMutate t x ds0 hlock hget =>
    have hlen : t < s.threads.length := by
      rcases List.getElem?_eq_some_iff.mp hget with ⟨hlt, -⟩
      exact hlt
    constructor
    · intro u op2 p2 hget2 hcrit2
      by_cases hut : u = t
      · subst hut
        rw [List.getElem?_set_self hlen] at hget2
        simp only [Option.some.injEq, Prod.mk.injEq] at hget2
        obtain ⟨-, rfl⟩ := hget2
        simp [Bridge.inCritical] at hcrit2
      · rw [List.getElem?_set_ne (fun hh => hut hh.symm)] at hget2
        have hcontra := hl u op2 p2 hget2 hcrit2
        rw [hlock] at hcontra
        exact absurd (Option.some.inj hcontra).symm hut
    · intro u op2 ds2 hget2
      by_cases hut : u = t
      · subst hut
        rw [List.getElem?_set_self hlen] at hget2
        simp at hget2
      · rw [List.getElem?_set_ne (fun hh => hut hh.symm)] at hget2
        have hcontra := hl u op2 (.midSnapshot ds2) hget2 rfl
        rw [hlock] at hcontra
        exact absurd (Option.some.inj hcontra).symm hut
  | readDevices t hlock hget =>
    have hlen : t < s.threads.length := by
      rcases List.getElem?_eq_some_iff.mp hget with ⟨hlt, -⟩
      exact hlt
    constructor
    · intro u op2 p2 hget2 hcrit2
      by_cases hut : u = t
      · subst hut
        rfl
      · rw [List.getElem?_set_ne (fun hh => hut hh.symm)] at hget2
        have hcontra := hl u op2 p2 hget2 hcrit2
        rw [hlock] at hcontra
        exact absurd (Option.some.inj hcontra).symm hut
    · intro u op2 ds2 hget2
      by_cases hut : u = t
      · subst hut
        rw [List.getElem?_set_self hlen] at hget2
        simp only [Option.some.injEq, Prod.mk.injEq,
          Bridge.TPhase.midSnapshot.injEq] at hget2
        obtain ⟨-, rfl⟩ := hget2
        rfl
      · rw [List.getElem?_set_ne (fun hh => hut hh.symm)] at hget2
        exact hs u op2 ds2 hget2
  | finishSnapshot t ds0 hlock hget =>
    have hlen : t < s.threads.length := by
      rcases List.getElem?_eq_some_iff.mp hget with ⟨hlt, -⟩
      exact hlt
    constructor
    · intro u op2 p2 hget2 hcrit2
      by_cases hut : u = t
      · subst hut
        rw [List.getElem?_set_self hlen] at hget2
        simp only [Option.some.injEq, Prod.mk.injEq] at hget2
        obtain ⟨-, rfl⟩ := hget2
        simp [Bridge.inCritical] at hcrit2
      · rw [List.getElem?_set_ne (fun hh => hut hh.symm)] at hget2
        have hcontra := hl u op2 p2 hget2 hcrit2
        rw [hlock] at hcontra
        exact absurd (Option.some.inj hcontra).symm hut
    · intro u op2 ds2 hget2
      by_cases hut : u = t
      · subst hut
        rw [List.getElem?_set_self hlen] at hget2
        simp at hget2
      · rw [List.getElem?_set_ne (fun hh => hut hh.symm)] at hget2
        exact hs u op2 ds2 hget2

/-- Both dispatcher invariants hold in every reachable state. -/
theorem reach_inv {ops : List Bridge.WorkOp} {st0 : Bridge.NativeState}
    {s : Bridge.DState}
    (h : Relation.ReflTransGen Bridge.DStep (Bridge.initState ops st0) s) :
    Bridge.LockInv s ∧ Bridge.SnapInv s := by
  induction h with
  | refl => exact initState_inv ops st0
  | tail hab hbc ih => exact dstep_preserves_inv hbc ih.1 ih.2

/-- C6: under every interleaving of worker threads, at most one native
call is in flight at any time — two threads simultaneously inside their
critical sections (where all native calls happen) are the same thread. -/
theorem C6_at_most_one_native_call_in_flight :
    ∀ (ops : List Bridge.WorkOp) (st0 : Bridge.NativeState)
      (s : Bridge.DState),
      Relation.ReflTransGen Bridge.DStep (Bridge.initState ops st0) s →
      ∀ (t u : Nat) (opA opB : Bridge.WorkOp) (pt pu : Bridge.TPhase),
        s.threads[t]? = some (opA, pt) → Bridge.inCritical pt = true →
        s.threads[u]? = some (opB, pu) → Bridge.inCritical pu = true →
        t = u := by
  intro ops st0 s hreach t u opA opB pt pu hgt hct hgu hcu
  have hl := (reach_inv hreach).1
  have h1 := hl t opA pt hgt hct
  have h2 := hl u opB pu hgu hcu
  rw [h1] at h2
  exact Option.some.inj h2

/-- Witness for C6: a concrete reachable state in which thread 0 holds
the critical section; the theorem applied twice to thread 0 yields 0 = 0
with every hypothesis discharged by evaluation. -/
theorem C6_witness :
    Relation.ReflTransGen Bridge.DStep (Bridge.initState witOps witNState)
      witAcquired ∧ (0 : Nat) = 0 := by
  have hstep : Bridge.DStep (Bridge.initState witOps witNState)
      witAcquired :=
    Bridge.DStep.acquire (Bridge.initState witOps witNState) 0
      Bridge.WorkOp.snapshot rfl rfl
  refine ⟨Relation.ReflTransGen.single hstep, ?_⟩
  exact C6_at_most_one_native_call_in_flight witOps witNState witAcquired
    (Relation.ReflTransGen.single hstep) 0 0 .snapshot .snapshot
    .entered .entered rfl rfl rfl rfl

/-- C10: in every reachable dispatcher state, a snapshot in progress has
read a device list equal to the current native device list, so the
snapshot it completes equals `snapshotOf` of one single native-side
state (no torn reads); and a delivered snapshot fully replaces the
stored last-delivered one. -/
theorem C10_snapshot_single_point :
    ∀ (ops : List Bridge.WorkOp) (st0 : Bridge.NativeState)
      (s : Bridge.DState),
      Relation.ReflTransGen Bridge.DStep (Bridge.initState ops st0) s →
      (∀ (t : Nat) (op : Bridge.WorkOp)
          (ds : List Bridge.DeviceDescriptor),
        s.threads[t]? = some (op, .midSnapshot ds) →
        Bridge.DeviceRegistrySnapshot.mk ds s.nst.mode
          = Bridge.snapshotOf s.nst) ∧
      (∀ (snap : Bridge.DeviceRegistrySnapshot)
          (last : Option Bridge.DeviceRegistrySnapshot),
        (Bridge.refreshDeliver snap last).2 = some snap) := by
  intro ops st0 s hreach
  constructor
  · intro t op ds hget
    have hds := (reach_inv hreach).2 t op ds hget
    rw [hds]
    rfl
  · intro snap last
    by_cases h : last = some snap <;> simp [Bridge.refreshDeliver, h]

/-- Witness for C10: the concrete two-step execution acquire-then-read
reaches a state whose in-progress snapshot matches the native state
exactly. -/
theorem C10_witness :
    Relation.ReflTransGen Bridge.DStep (Bridge.initState witOps witNState)
      witMidSnap ∧
    Bridge.DeviceRegistrySnapshot.mk [witDevice] witMidSnap.nst.mode
      = Bridge.snapshotOf witMidSnap.nst := by
  have h1 : Bridge.DStep (Bridge.initState witOps witNState) witAcquired :=
    Bridge.DStep.acquire (Bridge.initState witOps witNState) 0
      Bridge.WorkOp.snapshot rfl rfl
  have h2 : Bridge.DStep witAcquired witMidSnap :=
    Bridge.DStep.readDevices witAcquired 0 rfl rfl
  have hreach := Relation.ReflTransGen.tail
    (Relation.ReflTransGen.single h1) h2
  exact ⟨hreach,
    (C10_snapshot_single_point witOps witNState witMidSnap hreach).1
      0 .snapshot [witDevice] rfl⟩
